import Mathlib

/-!
Verification of the asset controllers of `@metamask/controllers` v8
(`AssetsController`, `AssetsDetectionController`, `CurrencyRateController`
and the validation utilities of `util.ts`).

The TypeScript controllers are shallowly embedded as pure Lean functions:
the controller's mutable `this.state` becomes an explicit `AssetsState`
(resp. `CurrencyRateState`) value threaded through each operation, the
two-level keyed maps (`allTokens` etc., plain JS objects keyed by account
address and chain id) become total functions with `[]` as the value of a
missing key (matching the `|| []` defaults used by the projections), hub
event emissions become explicit components of each operation's result, and
a returned promise that may reject is an `Except`/`Option` error component.
External network input (OpenSea responses, the balance checker, the
crypto-compare fetch) is passed in as explicit arguments, exactly as the
tests of the repository mock it.
-/

namespace Controllers

/-- Canonicalization of a single character of an address: the lowercase
hexadecimal letters `a`-`f` are mapped to their uppercase forms, everything
else (digits, the `0x` prefix, already-uppercase letters) is unchanged. -/
def checksumChar (c : Char) : Char :=
  if c = 'a' then 'A'
  else if c = 'b' then 'B'
  else if c = 'c' then 'C'
  else if c = 'd' then 'D'
  else if c = 'e' then 'E'
  else if c = 'f' then 'F'
  else c

/-- Modelled from the spec: `toChecksumAddress` (from `ethereumjs-util`) is an
external address-canonicalization utility; the spec lists "address
checksum/validation utilities" among the out-of-scope external collaborators.
Per the spec's glossary a checksummed address is a case-mixed rewriting of the
address determined by its hexadecimal digits, so checksumming is deterministic,
depends only on the hexadecimal digits of its input (case-insensitively) and
is idempotent.  We model it as uppercasing the hexadecimal letters, which has
exactly the properties the controllers rely on: a deterministic, idempotent
canonical form that in general differs from a lowercase input. -/
def toChecksumAddress (address : String) : String :=
  String.mk (address.data.map checksumChar)

/-- Hexadecimal digit, as matched by the address regexp of `isValidAddress`. -/
def isHexChar (c : Char) : Bool :=
  c.isDigit || (('a' ≤ c && c ≤ 'f') || ('A' ≤ c && c ≤ 'F'))

/-- Modelled from the spec: `isValidAddress` (from `ethereumjs-util`) is an
external validation utility (out of scope per the spec); it checks that its
argument is a `0x`-prefixed string of exactly 40 hexadecimal characters,
in any casing (the regexp `^0x[0-9a-fA-F]{40}$`, expressed over the string's
character list). -/
def isValidAddress (address : String) : Bool :=
  address.data.take 2 == ['0', 'x'] && address.data.length == 42
    && (address.data.drop 2).all isHexChar

/-- Embeds `Token` of `TokenRatesController`, as used by `AssetsController`:
`{ address, symbol, decimals, image? }`.  `decimals` is a JS number; the
validation path (`validateTokenToWatch`) treats it with `parseInt`, so we
carry it as an `Int`. -/
structure Token where
  address : String
  symbol : String
  decimals : Int
  image : Option String := none
  deriving Repr, DecidableEq

/-- Embeds `Collectible`: `{ address, tokenId, name?, image?, description? }`. -/
structure Collectible where
  address : String
  tokenId : Nat
  name : Option String := none
  image : Option String := none
  description : Option String := none
  deriving Repr, DecidableEq

/-- Embeds `CollectibleContract`:
`{ address, name?, logo?, symbol?, description?, totalSupply? }`. -/
structure CollectibleContract where
  address : String
  name : Option String := none
  logo : Option String := none
  symbol : Option String := none
  description : Option String := none
  totalSupply : Option String := none
  deriving Repr, DecidableEq

/-- Embeds `CollectibleInformation`: `{ description?, image?, name? }`. -/
structure CollectibleInformation where
  description : Option String := none
  image : Option String := none
  name : Option String := none
  deriving Repr, DecidableEq

/-- Embeds `SuggestedAssetStatus` enum of `AssetsController`. -/
inductive SuggestedAssetStatus where
  | accepted
  | failed
  | pending
  | rejected
  deriving Repr, DecidableEq

/-- Embeds `SuggestedAssetMeta`: `{ id, time, type, asset, status, error? }` where
`error` is present iff `status` is `failed` (we carry the error's message). -/
structure SuggestedAssetMeta where
  id : String
  time : Nat
  type : String
  asset : Token
  status : SuggestedAssetStatus
  error : Option String := none
  deriving Repr, DecidableEq

/-- Embeds `AssetsState`.  The keyed slices `allTokens`, `allCollectibleContracts`
and `allCollectibles` are JS objects indexed by account address then chain id;
we model them as total functions defaulting to `[]` for missing keys, which is
how every reader of the slices treats a missing key (`... || []`). -/
structure AssetsState where
  allTokens : String → String → List Token
  allCollectibleContracts : String → String → List CollectibleContract
  allCollectibles : String → String → List Collectible
  collectibleContracts : List CollectibleContract
  collectibles : List Collectible
  ignoredTokens : List Token
  ignoredCollectibles : List Collectible
  suggestedAssets : List SuggestedAssetMeta
  tokens : List Token

/-- The `defaultState` installed by the `AssetsController` constructor. -/
def defaultAssetsState : AssetsState where
  allTokens := fun _ _ => []
  allCollectibleContracts := fun _ _ => []
  allCollectibles := fun _ _ => []
  collectibleContracts := []
  collectibles := []
  ignoredTokens := []
  ignoredCollectibles := []
  suggestedAssets := []
  tokens := []

/-- The part of `AssetsConfig` the embedded operations read:
`selectedAddress` and `chainId`. -/
structure AssetsConfig where
  selectedAddress : String
  chainId : String
  deriving Repr, DecidableEq

/-- Embeds `{...allTokens[selectedAddress], [chainId]: v}` written back into
`allTokens` at `selectedAddress`: point update of a two-level keyed map. -/
def updateSlice {α : Type} (m : String → String → List α)
    (sel chain : String) (v : List α) : String → String → List α :=
  fun a c => if a = sel ∧ c = chain then v else m a c

/-- Embeds `tokens.find(...)` followed by `tokens[indexOf(found)] = newEntry`:
replaces the first list element satisfying `p` and keeps everything else in
place.  If no element satisfies `p`, the list is unchanged. -/
def replaceFirst {α : Type} (p : α → Bool) (new : α) : List α → List α
  | [] => []
  | t :: ts => if p t then new :: ts else t :: replaceFirst p new ts

/-- Embeds `AssetsController.addToken(address, symbol, decimals, image)`:
checksums the address; if a token with that address is already in the active
`tokens` list its entry is overwritten in place, otherwise the new entry is
pushed at the end; the keyed `allTokens` slice at
`(selectedAddress, chainId)` and the `tokens` projection are then both
rewritten.  Returns the new state and the returned token list. -/
def addToken (cfg : AssetsConfig) (s : AssetsState)
    (address symbol : String) (decimals : Int) (image : Option String) :
    AssetsState × List Token :=
  let address := toChecksumAddress address
  let newEntry : Token := { address, symbol, decimals, image }
  let newTokens :=
    if s.tokens.any (fun t => t.address = address) then
      replaceFirst (fun t => t.address = address) newEntry s.tokens
    else
      s.tokens ++ [newEntry]
  let s' := { s with
    tokens := newTokens
    allTokens := updateSlice s.allTokens cfg.selectedAddress cfg.chainId newTokens }
  (s', newTokens)

/-- Embeds `AssetsController.addTokens(tokensToAdd)`: folds the per-token
add-or-replace step of `addToken` over the batch, then rewrites the keyed
slice and the projection once. -/
def addTokens (cfg : AssetsConfig) (s : AssetsState) (tokensToAdd : List Token) :
    AssetsState × List Token :=
  let newTokens := tokensToAdd.foldl
    (fun acc tokenToAdd =>
      let checksumAddress := toChecksumAddress tokenToAdd.address
      let newEntry : Token := { tokenToAdd with address := checksumAddress }
      if acc.any (fun t => t.address = checksumAddress) then
        replaceFirst (fun t => t.address = checksumAddress) newEntry acc
      else
        acc ++ [newEntry])
    s.tokens
  let s' := { s with
    tokens := newTokens
    allTokens := updateSlice s.allTokens cfg.selectedAddress cfg.chainId newTokens }
  (s', newTokens)

/-- Embeds `AssetsController.removeToken(address)`. -/
def removeToken (cfg : AssetsConfig) (s : AssetsState) (address : String) :
    AssetsState :=
  let address := toChecksumAddress address
  let newTokens := s.tokens.filter (fun t => t.address ≠ address)
  { s with
    tokens := newTokens
    allTokens := updateSlice s.allTokens cfg.selectedAddress cfg.chainId newTokens }

/-- Embeds `AssetsController.removeAndIgnoreToken(address)`: filters every token with
the checksummed address out of the active list, pushing the first such token
onto the ignore list unless an entry with that address is already there. -/
def removeAndIgnoreToken (cfg : AssetsConfig) (s : AssetsState) (address : String) :
    AssetsState :=
  let address := toChecksumAddress address
  let newIgnoredTokens :=
    if s.tokens.any (fun t => t.address = address)
        ∧ ¬ s.ignoredTokens.any (fun t => t.address = address) then
      s.ignoredTokens ++ (s.tokens.filter (fun t => t.address = address)).take 1
    else
      s.ignoredTokens
  let newTokens := s.tokens.filter (fun t => t.address ≠ address)
  { s with
    tokens := newTokens
    ignoredTokens := newIgnoredTokens
    allTokens := updateSlice s.allTokens cfg.selectedAddress cfg.chainId newTokens }

/-- Embeds `AssetsController.clearIgnoredTokens()`. -/
def clearIgnoredTokens (s : AssetsState) : AssetsState :=
  { s with ignoredTokens := [] }

/-- Embeds `AssetsController.clearIgnoredCollectibles()`. -/
def clearIgnoredCollectibles (s : AssetsState) : AssetsState :=
  { s with ignoredCollectibles := [] }

/-- The result of `getCollectibleContractInformation`: either the empty object
`{}` (both the OpenSea source and the on-chain fallback failed; then
`Object.keys(contractInformation).length === 0`) or an object carrying the
five destructured fields `name`, `symbol`, `image_url`, `description`,
`total_supply`, each possibly `undefined` (present as keys either way, so the
object is non-empty). -/
inductive ContractInformation where
  | empty
  | fields (name symbol image_url description total_supply : Option String)
  deriving Repr, DecidableEq

/-- JS truthiness of a possibly-undefined string (`!image_url`):
falsy when `undefined` or the empty string. -/
def falsyStr : Option String → Bool
  | none => true
  | some u => u = ""

/-- Embeds `AssetsController.addIndividualCollectible(address, tokenId, opts?)`:
no-op when an entry with the checksummed `(address, tokenId)` pair already
exists in the active list; otherwise appends a new entry built from `opts` if
supplied, or from the metadata resolver (`getCollectibleInformation`,
whose network result we pass in as `resolveInformation`). -/
def addIndividualCollectible (cfg : AssetsConfig) (s : AssetsState)
    (address : String) (tokenId : Nat) (opts : Option CollectibleInformation)
    (resolveInformation : String → Nat → CollectibleInformation) :
    AssetsState :=
  let address := toChecksumAddress address
  if s.collectibles.any (fun c => c.address = address ∧ c.tokenId = tokenId) then
    s
  else
    let info := match opts with
      | some o => o
      | none => resolveInformation address tokenId
    let newEntry : Collectible :=
      { address, tokenId, name := info.name, image := info.image,
        description := info.description }
    let newCollectibles := s.collectibles ++ [newEntry]
    { s with
      collectibles := newCollectibles
      allCollectibles :=
        updateSlice s.allCollectibles cfg.selectedAddress cfg.chainId
          newCollectibles }

/-- Embeds `AssetsController.addCollectibleContract(address, detection?)`: no-op if a
contract with the checksummed address is already in the active list; otherwise
resolves contract metadata (`getCollectibleContractInformation`, passed in as
`resolveContract`) and rejects the add when
`(detection && !image_url) || Object.keys(contractInformation).length === 0`;
else appends the new entry and rewrites slice and projection.  Returns the new
state and the returned contract list. -/
def addCollectibleContract (cfg : AssetsConfig) (s : AssetsState)
    (address : String) (detection : Bool)
    (resolveContract : String → ContractInformation) :
    AssetsState × List CollectibleContract :=
  let address := toChecksumAddress address
  if s.collectibleContracts.any (fun c => c.address = address) then
    (s, s.collectibleContracts)
  else
    match resolveContract address with
    | .empty => (s, s.collectibleContracts)
    | .fields name symbol image_url description total_supply =>
      if detection ∧ falsyStr image_url then
        (s, s.collectibleContracts)
      else
        let newEntry : CollectibleContract :=
          { address, description, logo := image_url, name, symbol,
            totalSupply := total_supply }
        let newCollectibleContracts := s.collectibleContracts ++ [newEntry]
        let s' := { s with
          collectibleContracts := newCollectibleContracts
          allCollectibleContracts :=
            updateSlice s.allCollectibleContracts cfg.selectedAddress
              cfg.chainId newCollectibleContracts }
        (s', newCollectibleContracts)

/-- Embeds `AssetsController.addCollectible(address, tokenId, opts?, detection?)`:
first ensures the contract entry via `addCollectibleContract`; only when a
contract with the checksummed address is in the returned list does it add the
individual collectible. -/
def addCollectible (cfg : AssetsConfig) (s : AssetsState)
    (address : String) (tokenId : Nat) (opts : Option CollectibleInformation)
    (detection : Bool)
    (resolveContract : String → ContractInformation)
    (resolveInformation : String → Nat → CollectibleInformation) :
    AssetsState :=
  let address := toChecksumAddress address
  let (s1, newCollectibleContracts) :=
    addCollectibleContract cfg s address detection resolveContract
  if newCollectibleContracts.any (fun c => c.address = address) then
    addIndividualCollectible cfg s1 address tokenId opts resolveInformation
  else
    s1

/-- Embeds `AssetsController.removeIndividualCollectible(address, tokenId)`. -/
def removeIndividualCollectible (cfg : AssetsConfig) (s : AssetsState)
    (address : String) (tokenId : Nat) : AssetsState :=
  let address := toChecksumAddress address
  let newCollectibles :=
    s.collectibles.filter
      (fun c => ¬ (c.address = address ∧ c.tokenId = tokenId))
  { s with
    collectibles := newCollectibles
    allCollectibles :=
      updateSlice s.allCollectibles cfg.selectedAddress cfg.chainId
        newCollectibles }

/-- Embeds `AssetsController.removeAndIgnoreIndividualCollectible(address, tokenId)`:
filters every matching collectible out of the active list, pushing the first
one onto the ignore list unless an entry with the same `(address, tokenId)` is
already there. -/
def removeAndIgnoreIndividualCollectible (cfg : AssetsConfig) (s : AssetsState)
    (address : String) (tokenId : Nat) : AssetsState :=
  let address := toChecksumAddress address
  let isTarget := fun (c : Collectible) => c.address = address ∧ c.tokenId = tokenId
  let newIgnoredCollectibles :=
    if s.collectibles.any isTarget ∧ ¬ s.ignoredCollectibles.any isTarget then
      s.ignoredCollectibles ++ (s.collectibles.filter isTarget).take 1
    else
      s.ignoredCollectibles
  let newCollectibles := s.collectibles.filter (fun c => ¬ isTarget c)
  { s with
    collectibles := newCollectibles
    ignoredCollectibles := newIgnoredCollectibles
    allCollectibles :=
      updateSlice s.allCollectibles cfg.selectedAddress cfg.chainId
        newCollectibles }

/-- Embeds `AssetsController.removeCollectibleContract(address)`. -/
def removeCollectibleContract (cfg : AssetsConfig) (s : AssetsState)
    (address : String) : AssetsState :=
  let address := toChecksumAddress address
  let newCollectibleContracts :=
    s.collectibleContracts.filter (fun c => ¬ c.address = address)
  { s with
    collectibleContracts := newCollectibleContracts
    allCollectibleContracts :=
      updateSlice s.allCollectibleContracts cfg.selectedAddress cfg.chainId
        newCollectibleContracts }

/-- Embeds `AssetsController.removeCollectible(address, tokenId)`: removes the
individual entry, then removes the contract entry as well when no active
collectible with the checksummed address remains. -/
def removeCollectible (cfg : AssetsConfig) (s : AssetsState)
    (address : String) (tokenId : Nat) : AssetsState :=
  let address := toChecksumAddress address
  let s1 := removeIndividualCollectible cfg s address tokenId
  if s1.collectibles.any (fun c => c.address = address) then
    s1
  else
    removeCollectibleContract cfg s1 address

/-- Embeds `AssetsController.removeAndIgnoreCollectible(address, tokenId)`: like
`removeCollectible` but the removed entry is moved to the ignore list. -/
def removeAndIgnoreCollectible (cfg : AssetsConfig) (s : AssetsState)
    (address : String) (tokenId : Nat) : AssetsState :=
  let address := toChecksumAddress address
  let s1 := removeAndIgnoreIndividualCollectible cfg s address tokenId
  if s1.collectibles.any (fun c => c.address = address) then
    s1
  else
    removeCollectibleContract cfg s1 address

/-- Embeds `validateTokenToWatch(token)` of `util.ts`: requires a truthy
address and symbol, symbol at most 11 characters, `parseInt(decimals, 10)`
within `[0, 36]`, and a valid address.  `decimals` arrives as a number, so
`parseInt` is the identity on it and `isNaN` cannot fire; the `typeof decimals
=== 'undefined'` arm of the first check is unrepresentable for our
always-present `Int` field.  Errors are returned as messages. -/
def validateTokenToWatch (token : Token) : Except String Unit :=
  if token.address = "" ∨ token.symbol = "" then
    .error "Must specify address, symbol, and decimals."
  else if token.symbol.length > 11 then
    .error "Invalid symbol: longer than 11 characters."
  else if token.decimals > 36 ∨ token.decimals < 0 then
    .error "Invalid decimals: must be 0 <= 36."
  else if ¬ isValidAddress token.address then
    .error "Invalid address."
  else
    .ok ()

/-- The settlement of the promise returned by `watchAsset`: the `once`
listener on `<id>:finished` resolves with `meta.asset.address` when the
emitted meta is `accepted`, and rejects otherwise. -/
inductive PromiseOutcome where
  | resolved (value : String)
  | rejectedWith (message : String)
  deriving Repr, DecidableEq

/-- Embeds the `<id>:finished` listener installed by `watchAsset`: the status
of the emitted meta decides how the caller's promise settles.  On `accepted`
it resolves with `meta.asset.address`; on `rejected` and `failed` it rejects
with the corresponding message (`pending` is the unreachable default arm). -/
def settleWatchPromise (meta : SuggestedAssetMeta) : PromiseOutcome :=
  match meta.status with
  | .accepted => .resolved meta.asset.address
  | .rejected => .rejectedWith "User rejected to watch the asset."
  | .failed => .rejectedWith (meta.error.getD "")
  | .pending => .rejectedWith "Unknown status"

/-- Result of a `watchAsset` call: the state afterwards, the validation error
the returned promise rejects with (if any), the stored pending meta (on
success), and the meta emitted on `<id>:finished` by `failSuggestedAsset`
(on validation failure). -/
structure WatchAssetResult where
  state : AssetsState
  validationError : Option String
  pendingMeta : Option SuggestedAssetMeta
  finishedEvent : Option SuggestedAssetMeta

/-- Embeds `AssetsController.watchAsset(asset, type)`.  The generated uuid and
`Date.now()` are passed in as `id` and `time`.  A pending meta is built; the
type dispatch validates (only `"ERC20"` is supported); on a validation error
`failSuggestedAsset` emits the meta with status `failed` and the error, and
the call returns a rejected promise without touching state; on success the
pending meta is pushed onto `suggestedAssets`. -/
def watchAsset (s : AssetsState) (asset : Token) (type : String)
    (id : String) (time : Nat) : WatchAssetResult :=
  let suggestedAssetMeta : SuggestedAssetMeta :=
    { asset, id, status := .pending, time, type }
  let validation : Except String Unit :=
    if type = "ERC20" then validateTokenToWatch asset
    else .error "Asset of type not supported"
  match validation with
  | .error e =>
    { state := s
      validationError := some e
      pendingMeta := none
      finishedEvent := some { suggestedAssetMeta with status := .failed, error := some e } }
  | .ok _ =>
    { state := { s with suggestedAssets := s.suggestedAssets ++ [suggestedAssetMeta] }
      validationError := none
      pendingMeta := some suggestedAssetMeta
      finishedEvent := none }

/-- Result of an `acceptWatchAsset` call: the state once the async function
settles, the meta emitted on `<id>:finished` (if the flow got that far), and
the error with which the returned promise rejects (when an exception escapes
the function). -/
structure AcceptWatchAssetResult where
  state : AssetsState
  finishedEvent : Option SuggestedAssetMeta
  thrownError : Option String

/-- Embeds `AssetsController.acceptWatchAsset(suggestedAssetID)`.  The record
is looked up by id.  When the id is unknown the lookup yields `undefined`, the
`suggestedAssetMeta.type` access inside the `try` throws a `TypeError` which
the `catch` routes to `failSuggestedAsset(undefined, error)`, where the
`suggestedAssetMeta.id` access throws a second, uncaught `TypeError`: the
returned promise rejects and the trailing filter/update never runs.  For a
known `"ERC20"` record, `addToken` registers the asset, the record's status
becomes `accepted` and is emitted on `<id>:finished`; for a record of any
other type the thrown unsupported-type error is caught and
`failSuggestedAsset` emits the record with status `failed`.  In both caught
branches the record is then filtered out of `suggestedAssets`. -/
def acceptWatchAsset (cfg : AssetsConfig) (s : AssetsState)
    (suggestedAssetID : String) : AcceptWatchAssetResult :=
  match s.suggestedAssets.find? (fun m => m.id = suggestedAssetID) with
  | none =>
    { state := s
      finishedEvent := none
      thrownError := some "TypeError: cannot read properties of undefined" }
  | some suggestedAssetMeta =>
    if suggestedAssetMeta.type = "ERC20" then
      let asset := suggestedAssetMeta.asset
      let (s1, _) := addToken cfg s asset.address asset.symbol asset.decimals asset.image
      let acceptedMeta := { suggestedAssetMeta with status := SuggestedAssetStatus.accepted }
      let newSuggestedAssets :=
        s1.suggestedAssets.filter (fun m => m.id ≠ suggestedAssetID)
      { state := { s1 with suggestedAssets := newSuggestedAssets }
        finishedEvent := some acceptedMeta
        thrownError := none }
    else
      let failedMeta :=
        { suggestedAssetMeta with
          status := SuggestedAssetStatus.failed
          error := some "Asset of type not supported" }
      let newSuggestedAssets :=
        s.suggestedAssets.filter (fun m => m.id ≠ suggestedAssetID)
      { state := { s with suggestedAssets := newSuggestedAssets }
        finishedEvent := some failedMeta
        thrownError := none }

/-- Embeds `AssetsController.rejectWatchAsset(suggestedAssetID)`: unknown ids
return silently with no state change and no event; otherwise the record's
status becomes `rejected`, it is emitted on `<id>:finished`, and it is
filtered out of `suggestedAssets`.  Returns the new state and the emitted
meta. -/
def rejectWatchAsset (s : AssetsState) (suggestedAssetID : String) :
    AssetsState × Option SuggestedAssetMeta :=
  match s.suggestedAssets.find? (fun m => m.id = suggestedAssetID) with
  | none => (s, none)
  | some suggestedAssetMeta =>
    let rejectedMeta := { suggestedAssetMeta with status := SuggestedAssetStatus.rejected }
    let newSuggestedAssets :=
      s.suggestedAssets.filter (fun m => m.id ≠ suggestedAssetID)
    ({ s with suggestedAssets := newSuggestedAssets }, some rejectedMeta)

/-- One entry of the static `@metamask/contract-metadata` registry, as read by
`AssetsDetectionController.detectTokens`: keyed by (checksummed) contract
address, carrying the `erc20` flag and the `decimals`/`symbol` fields used for
staged tokens.  The registry is modelled as a list of entries. -/
structure ContractMetadataEntry where
  address : String
  erc20 : Bool
  decimals : Int
  symbol : String
  deriving Repr, DecidableEq

/-- Embeds JavaScript's `key in array` for an array of length `len`: the `in`
operator tests property membership, and the own enumerable keys of a dense
array are its indices, the canonical decimal strings `"0"`, ..., `"len-1"`
(plus `length` and inherited method names, none of which a contract address
can collide with).  So the test is true exactly when `key` is the canonical
decimal representation (all digits, no leading zero except `"0"` itself) of
some `n < len`. -/
def jsInArray (key : String) (len : Nat) : Bool :=
  match key.data with
  | [] => false
  | c :: cs =>
    (c :: cs).all Char.isDigit
      && (c ≠ '0' || cs.isEmpty)
      && ((c :: cs).foldl (fun acc d => acc * 10 + (d.toNat - 48)) 0 < len)

/-- Embeds the candidate-list construction of
`AssetsDetectionController.detectTokens`: `tokensAddresses` is
`config.tokens.filter(token => token.address)` (an array of `Token` objects
with truthy addresses), and an address of the registry is a candidate when its
entry has `erc20` set and `!(address in tokensAddresses)` — the JS `in`
operator applied to that array, which checks array indices, not token
addresses. -/
def detectTokensCandidates (registry : List ContractMetadataEntry)
    (configTokens : List Token) : List String :=
  let tokensAddresses := configTokens.filter (fun t => t.address ≠ "")
  ((registry.filter
      (fun c => c.erc20 && ! jsInArray c.address tokensAddresses.length)).map
    (fun c => c.address))

/-- Definition following the spec's words, for comparison with
`detectTokensCandidates`: "builds a candidate address list from a static
registry of known contracts minus addresses the user already tracks", i.e.
the ERC20 registry addresses that do not occur among the configured tokens'
addresses. -/
def specCandidateList (registry : List ContractMetadataEntry)
    (configTokens : List Token) : List String :=
  ((registry.filter
      (fun c => c.erc20 && ! configTokens.any (fun t => t.address = c.address))).map
    (fun c => c.address))

/-- Embeds the staging loop of `detectTokens`: for each key of the balances
object returned by the single batched `getBalancesInSingleCall`, the token is
staged unless an entry with the checksummed address is in `ignoredTokens`; a
staged token copies `decimals` and `symbol` from the registry entry of the
(raw) address.  Balance keys are always candidate addresses, hence registry
keys; a missing registry entry would give `undefined` fields in JS and is
modelled by empty defaults. -/
def detectTokensStaged (registry : List ContractMetadataEntry)
    (ignoredTokens : List Token) (balanceKeys : List String) : List Token :=
  balanceKeys.filterMap (fun tokenAddress =>
    if ignoredTokens.any (fun t => t.address = toChecksumAddress tokenAddress) then
      none
    else
      match registry.find? (fun c => c.address = tokenAddress) with
      | some c => some { address := tokenAddress, symbol := c.symbol,
                         decimals := c.decimals, image := none }
      | none => some { address := tokenAddress, symbol := "", decimals := 0,
                       image := none })

/-- Embeds the tail of `detectTokens`: `if (tokensToAdd.length) { await
this.addTokens(tokensToAdd) }` — a single batched add happens exactly when at
least one token was staged.  Returns the assets state after the pass and
whether `addTokens` was called. -/
def detectTokensFinish (cfg : AssetsConfig) (s : AssetsState)
    (tokensToAdd : List Token) : AssetsState × Bool :=
  if tokensToAdd.length ≠ 0 then ((addTokens cfg s tokensToAdd).1, true)
  else (s, false)

/-- Embeds `ApiCollectibleResponse`, one item of the OpenSea owned-assets
listing destructured by `detectCollectibles`: `token_id` (a decimal string in
the API, used only through `Number(token_id)`, so modelled by its numeric
value), `image_original_url`, `name`, `description`, and
`asset_contract.address` (flattened to `contractAddress`). -/
structure ApiCollectibleResponse where
  token_id : Nat
  image_original_url : Option String
  name : Option String
  description : Option String
  contractAddress : String
  deriving Repr, DecidableEq

/-- Embeds the per-item body of `AssetsDetectionController.detectCollectibles`:
the item is skipped when an entry of `ignoredCollectibles` matches its
checksummed contract address and numeric token id; otherwise it is added via
`addCollectible(address, Number(token_id), {description, image, name},
detection = true)`. -/
def detectCollectiblesStep (cfg : AssetsConfig)
    (resolveContract : String → ContractInformation)
    (resolveInformation : String → Nat → CollectibleInformation)
    (s : AssetsState) (collectible : ApiCollectibleResponse) : AssetsState :=
  let ignored := s.ignoredCollectibles.any (fun c =>
    c.address = toChecksumAddress collectible.contractAddress
      ∧ c.tokenId = collectible.token_id)
  if ignored then s
  else
    addCollectible cfg s collectible.contractAddress collectible.token_id
      (some { description := collectible.description,
              image := collectible.image_original_url,
              name := collectible.name })
      true resolveContract resolveInformation

/-- Embeds a whole `detectCollectibles` pass over a fetched owned-collectibles
result set (the per-item adds all serialize through the controller's mutex;
we process them in list order). -/
def detectCollectibles (cfg : AssetsConfig)
    (resolveContract : String → ContractInformation)
    (resolveInformation : String → Nat → CollectibleInformation)
    (s : AssetsState) (apiCollectibles : List ApiCollectibleResponse) :
    AssetsState :=
  apiCollectibles.foldl (detectCollectiblesStep cfg resolveContract resolveInformation) s

/-- Embeds the state of `CurrencyRateController` (`BaseControllerV2`).  Rates
and dates are JS numbers; the claims never compute with them, so an `Int`
carrier suffices.  `usdConversionRate` is `null` initially and optional in the
fetch result. -/
structure CurrencyRateState where
  conversionDate : Int
  conversionRate : Int
  currentCurrency : String
  nativeCurrency : String
  pendingCurrentCurrency : Option String
  pendingNativeCurrency : Option String
  usdConversionRate : Option Int
  deriving Repr, DecidableEq

/-- Embeds the `defaultState` of `CurrencyRateController`. -/
def defaultCurrencyRateState : CurrencyRateState where
  conversionDate := 0
  conversionRate := 0
  currentCurrency := "usd"
  nativeCurrency := "ETH"
  pendingCurrentCurrency := none
  pendingNativeCurrency := none
  usdConversionRate := none

/-- The successful result of `fetchExchangeRate` (the crypto-compare API
call, an external input to `updateExchangeRate`). -/
structure ExchangeRateFetch where
  conversionDate : Int
  conversionRate : Int
  usdConversionRate : Option Int
  deriving Repr, DecidableEq

/-- Embeds `CurrencyRateController.updateExchangeRate()`, with the network
fetch's outcome passed in.  On a successful fetch the whole state is replaced
(promoting any pending currency choices); when the fetch throws, the `try ...
finally` releases the mutex and re-throws: the state is not updated and the
error propagates to the caller (returned here as the second component). -/
def updateExchangeRate (s : CurrencyRateState)
    (fetched : Except String ExchangeRateFetch) :
    CurrencyRateState × Option String :=
  match fetched with
  | .error e => (s, some e)
  | .ok r =>
    ({ conversionDate := r.conversionDate
       conversionRate := r.conversionRate
       currentCurrency := s.pendingCurrentCurrency.getD s.currentCurrency
       nativeCurrency := s.pendingNativeCurrency.getD s.nativeCurrency
       pendingCurrentCurrency := none
       pendingNativeCurrency := none
       usdConversionRate := r.usdConversionRate }, none)

/-- Embeds one tick of the polling loop installed by
`CurrencyRateController.startPolling()`: the interval callback runs
`safelyExecute(() => this.updateExchangeRate())`, and `safelyExecute`
(`util.ts`) catches any error and returns `undefined`, so no error ever
reaches the interval machinery. -/
def currencyRatePollTick (s : CurrencyRateState)
    (fetched : Except String ExchangeRateFetch) :
    CurrencyRateState × Option String :=
  let (s', _thrown) := updateExchangeRate s fetched
  (s', none)

/-- Runs the polling loop over a whole trace of fetch outcomes: `setInterval`
keeps firing regardless of each tick's outcome, so every scheduled tick is
processed. -/
def runCurrencyRatePolling (s : CurrencyRateState) :
    List (Except String ExchangeRateFetch) → CurrencyRateState
  | [] => s
  | fetched :: rest =>
    runCurrencyRatePolling (currencyRatePollTick s fetched).1 rest

/-!  Helper lemmas shared by the claim theorems.  -/

theorem checksumChar_idem (c : Char) : checksumChar (checksumChar c) = checksumChar c := by
  by_cases h1 : c = 'a'
  · subst h1; decide
  by_cases h2 : c = 'b'
  · subst h2; decide
  by_cases h3 : c = 'c'
  · subst h3; decide
  by_cases h4 : c = 'd'
  · subst h4; decide
  by_cases h5 : c = 'e'
  · subst h5; decide
  by_cases h6 : c = 'f'
  · subst h6; decide
  have hc : checksumChar c = c := by
    unfold checksumChar
    simp [h1, h2, h3, h4, h5, h6]
  simp [hc]

theorem toChecksumAddress_idem (s : String) :
    toChecksumAddress (toChecksumAddress s) = toChecksumAddress s := by
  unfold toChecksumAddress
  have h : ∀ l : List Char, (l.map checksumChar).map checksumChar = l.map checksumChar := by
    intro l
    induction l with
    | nil => rfl
    | cons c t ih => simp [checksumChar_idem, ih]
  simp [h]

theorem replaceFirst_length {α : Type} (p : α → Bool) (new : α) (l : List α) :
    (replaceFirst p new l).length = l.length := by
  induction l with
  | nil => rfl
  | cons t ts ih =>
    unfold replaceFirst
    by_cases h : p t <;> simp [h, ih]

theorem replaceFirst_getElem_findIdx {α : Type} (p : α → Bool) (new : α)
    (l : List α) (h : l.any p = true) :
    (replaceFirst p new l)[l.findIdx p]? = some new := by
  induction l with
  | nil => simp at h
  | cons t ts ih =>
    by_cases hp : p t
    · simp [replaceFirst, hp, List.findIdx_cons]
    · have hts : ts.any p = true := by simpa [hp] using h
      simp [replaceFirst, hp, List.findIdx_cons, ih hts]

theorem replaceFirst_getElem_ne {α : Type} (p : α → Bool) (new : α)
    (l : List α) (j : ℕ) (hj : j ≠ l.findIdx p) :
    (replaceFirst p new l)[j]? = l[j]? := by
  induction l generalizing j with
  | nil => rfl
  | cons t ts ih =>
    by_cases hp : p t
    · have h0 : j ≠ 0 := by simpa [List.findIdx_cons, hp] using hj
      obtain ⟨k, rfl⟩ := Nat.exists_eq_succ_of_ne_zero h0
      simp [replaceFirst, hp]
    · cases j with
      | zero => simp [replaceFirst, hp]
      | succ k =>
        have hk : k ≠ ts.findIdx p := by
          intro hcontra
          apply hj
          simp [List.findIdx_cons, hp, hcontra]
        simp [replaceFirst, hp, ih k hk]

theorem mem_replaceFirst_self {α : Type} (p : α → Bool) (new : α)
    (l : List α) (h : l.any p = true) : new ∈ replaceFirst p new l := by
  induction l with
  | nil => simp at h
  | cons t ts ih =>
    by_cases hp : p t
    · simp [replaceFirst, hp]
    · have hts : ts.any p = true := by simpa [hp] using h
      simp [replaceFirst, hp, ih hts]

theorem find?_append_last {α : Type} (p : α → Bool) (l : List α) (x : α)
    (hl : ∀ m ∈ l, p m = false) (hx : p x = true) :
    (l ++ [x]).find? p = some x := by
  induction l with
  | nil => simp [List.find?, hx]
  | cons t ts ih =>
    have ht : p t = false := hl t (by simp)
    have hts : ∀ m ∈ ts, p m = false := fun m hm => hl m (by simp [hm])
    simp [List.find?_cons, ht, ih hts]

/-- C9: when the exchange-rate fetch of a currency-rate polling tick fails,
the controller's state is left completely unchanged (hence every field —
`conversionDate`, `conversionRate`, `currentCurrency`, `nativeCurrency`, the
pending fields and `usdConversionRate` — is unchanged), the error is swallowed
by `safelyExecute` and never surfaced to the interval callback's caller, and
the polling loop continues with the remaining scheduled ticks exactly as if
the failed tick had not happened. -/
theorem currencyRate_failedTick_preservesState (s : CurrencyRateState)
    (e : String) (rest : List (Except String ExchangeRateFetch)) :
    (currencyRatePollTick s (Except.error e)).1 = s
      ∧ (currencyRatePollTick s (Except.error e)).2 = none
      ∧ (updateExchangeRate s (Except.error e)).1 = s
      ∧ runCurrencyRatePolling s (Except.error e :: rest)
        = runCurrencyRatePolling s rest :=
  ⟨rfl, rfl, rfl, rfl⟩

/-- C10: for an id with no record in `suggestedAssets`, `acceptWatchAsset`
throws (its returned promise rejects via the property access on the missing
record, before any event is emitted) and leaves the state — in particular the
`suggestedAssets` list — unchanged, whereas `rejectWatchAsset` with the same
unknown id returns silently with no state change and no emitted event. -/
theorem acceptUnknownId_throws_rejectUnknownId_silent (cfg : AssetsConfig)
    (s : AssetsState) (suggestedAssetID : String)
    (h : ∀ m ∈ s.suggestedAssets, m.id ≠ suggestedAssetID) :
    (acceptWatchAsset cfg s suggestedAssetID).thrownError.isSome = true
      ∧ (acceptWatchAsset cfg s suggestedAssetID).state = s
      ∧ (acceptWatchAsset cfg s suggestedAssetID).finishedEvent = none
      ∧ rejectWatchAsset s suggestedAssetID = (s, none) := by
  have hfind : s.suggestedAssets.find? (fun m => m.id = suggestedAssetID) = none := by
    rw [List.find?_eq_none]
    intro m hm
    simp [h m hm]
  refine ⟨?_, ?_, ?_, ?_⟩
  · simp [acceptWatchAsset, hfind]
  · simp [acceptWatchAsset, hfind]
  · simp [acceptWatchAsset, hfind]
  · simp [rejectWatchAsset, hfind]

/-- Witness for C10 at a concrete input: the empty default state has no
suggestion with id `"missing"`. -/
theorem acceptUnknownId_throws_rejectUnknownId_silent_witness :
    (acceptWatchAsset ⟨"0xACC", "1"⟩ defaultAssetsState "missing").thrownError.isSome = true
      ∧ (acceptWatchAsset ⟨"0xACC", "1"⟩ defaultAssetsState "missing").state
        = defaultAssetsState
      ∧ (acceptWatchAsset ⟨"0xACC", "1"⟩ defaultAssetsState "missing").finishedEvent = none
      ∧ rejectWatchAsset defaultAssetsState "missing" = (defaultAssetsState, none) :=
  acceptUnknownId_throws_rejectUnknownId_silent ⟨"0xACC", "1"⟩ defaultAssetsState
    "missing" (by intro m hm; simp [defaultAssetsState] at hm)

/-- C8: a `watchAsset` call whose payload has `decimals = 37` (with the other
fields passing the earlier checks, so that validation reaches the decimals
range check) rejects synchronously with the decimals validation error, the
suggestion meta emitted on the `<id>:finished` channel has status `failed`
carrying that error, no pending record is created, and the state is
untouched. -/
theorem watchAsset_decimals37_failsValidation (s : AssetsState) (asset : Token)
    (id : String) (time : ℕ)
    (haddr : asset.address ≠ "") (hsym : asset.symbol ≠ "")
    (hlen : asset.symbol.length ≤ 11) (hdec : asset.decimals = 37) :
    (watchAsset s asset "ERC20" id time).validationError
        = some "Invalid decimals: must be 0 <= 36."
      ∧ (watchAsset s asset "ERC20" id time).finishedEvent.map (fun m => m.status)
        = some SuggestedAssetStatus.failed
      ∧ (watchAsset s asset "ERC20" id time).finishedEvent.map (fun m => m.error)
        = some (some "Invalid decimals: must be 0 <= 36.")
      ∧ (watchAsset s asset "ERC20" id time).pendingMeta = none
      ∧ (watchAsset s asset "ERC20" id time).state = s := by
  have h1 : ¬ (asset.address = "" ∨ asset.symbol = "") := by
    simp [haddr, hsym]
  have h2 : ¬ (asset.symbol.length > 11) := by omega
  have h3 : asset.decimals > 36 ∨ asset.decimals < 0 := by
    rw [hdec]; norm_num
  have hval : validateTokenToWatch asset
      = Except.error "Invalid decimals: must be 0 <= 36." := by
    simp [validateTokenToWatch, h1, h2, h3]
  refine ⟨?_, ?_, ?_, ?_, ?_⟩ <;> simp [watchAsset, hval]

/-- Witness for C8 at a concrete input: a syntactically valid asset except for
`decimals = 37`. -/
theorem watchAsset_decimals37_failsValidation_witness :
    (watchAsset defaultAssetsState
        ⟨"0xaaaaaaaaaaaaaaaaaaaaaaaaaaaaaaaaaaaaaaaa", "ABC", 37, none⟩
        "ERC20" "id1" 5).validationError
        = some "Invalid decimals: must be 0 <= 36."
      ∧ (watchAsset defaultAssetsState
          ⟨"0xaaaaaaaaaaaaaaaaaaaaaaaaaaaaaaaaaaaaaaaa", "ABC", 37, none⟩
          "ERC20" "id1" 5).finishedEvent.map (fun m => m.status)
        = some SuggestedAssetStatus.failed
      ∧ (watchAsset defaultAssetsState
          ⟨"0xaaaaaaaaaaaaaaaaaaaaaaaaaaaaaaaaaaaaaaaa", "ABC", 37, none⟩
          "ERC20" "id1" 5).finishedEvent.map (fun m => m.error)
        = some (some "Invalid decimals: must be 0 <= 36.")
      ∧ (watchAsset defaultAssetsState
          ⟨"0xaaaaaaaaaaaaaaaaaaaaaaaaaaaaaaaaaaaaaaaa", "ABC", 37, none⟩
          "ERC20" "id1" 5).pendingMeta = none
      ∧ (watchAsset defaultAssetsState
          ⟨"0xaaaaaaaaaaaaaaaaaaaaaaaaaaaaaaaaaaaaaaaa", "ABC", 37, none⟩
          "ERC20" "id1" 5).state = defaultAssetsState :=
  watchAsset_decimals37_failsValidation defaultAssetsState
    ⟨"0xaaaaaaaaaaaaaaaaaaaaaaaaaaaaaaaaaaaaaaaa", "ABC", 37, none⟩
    "id1" 5 (by decide) (by decide) (by decide) (by decide)

theorem rAIT_tokens_eq (cfg : AssetsConfig) (s : AssetsState) (address : String) :
    (removeAndIgnoreToken cfg s address).tokens
      = s.tokens.filter (fun t => t.address ≠ toChecksumAddress address) := rfl

theorem rAIT_ignored_eq (cfg : AssetsConfig) (s : AssetsState) (address : String) :
    (removeAndIgnoreToken cfg s address).ignoredTokens
      = if s.tokens.any (fun t => t.address = toChecksumAddress address)
            ∧ ¬ s.ignoredTokens.any (fun t => t.address = toChecksumAddress address)
        then s.ignoredTokens
              ++ (s.tokens.filter
                    (fun t => t.address = toChecksumAddress address)).take 1
        else s.ignoredTokens := rfl

theorem rAIIC_collectibles_eq (cfg : AssetsConfig) (s : AssetsState)
    (address : String) (tokenId : ℕ) :
    (removeAndIgnoreIndividualCollectible cfg s address tokenId).collectibles
      = s.collectibles.filter
          (fun c => ¬ (c.address = toChecksumAddress address ∧ c.tokenId = tokenId)) := rfl

theorem rAIIC_ignored_eq (cfg : AssetsConfig) (s : AssetsState)
    (address : String) (tokenId : ℕ) :
    (removeAndIgnoreIndividualCollectible cfg s address tokenId).ignoredCollectibles
      = if s.collectibles.any
            (fun c => c.address = toChecksumAddress address ∧ c.tokenId = tokenId)
            ∧ ¬ s.ignoredCollectibles.any
                (fun c => c.address = toChecksumAddress address ∧ c.tokenId = tokenId)
        then s.ignoredCollectibles
              ++ (s.collectibles.filter
                    (fun c => c.address = toChecksumAddress address
                      ∧ c.tokenId = tokenId)).take 1
        else s.ignoredCollectibles := rfl

theorem rAIIC_contracts_eq (cfg : AssetsConfig) (s : AssetsState)
    (address : String) (tokenId : ℕ) :
    (removeAndIgnoreIndividualCollectible cfg s address tokenId).collectibleContracts
      = s.collectibleContracts := rfl

theorem rIC_collectibles_eq (cfg : AssetsConfig) (s : AssetsState)
    (address : String) (tokenId : ℕ) :
    (removeIndividualCollectible cfg s address tokenId).collectibles
      = s.collectibles.filter
          (fun c => ¬ (c.address = toChecksumAddress address ∧ c.tokenId = tokenId)) := rfl

theorem rIC_contracts_eq (cfg : AssetsConfig) (s : AssetsState)
    (address : String) (tokenId : ℕ) :
    (removeIndividualCollectible cfg s address tokenId).collectibleContracts
      = s.collectibleContracts := rfl

theorem rCC_contracts_eq (cfg : AssetsConfig) (s : AssetsState) (address : String) :
    (removeCollectibleContract cfg s address).collectibleContracts
      = s.collectibleContracts.filter
          (fun c => ¬ c.address = toChecksumAddress address) := rfl

theorem rCC_collectibles_eq (cfg : AssetsConfig) (s : AssetsState) (address : String) :
    (removeCollectibleContract cfg s address).collectibles = s.collectibles := rfl

theorem rCC_ignored_eq (cfg : AssetsConfig) (s : AssetsState) (address : String) :
    (removeCollectibleContract cfg s address).ignoredCollectibles
      = s.ignoredCollectibles := rfl

theorem rAIC_eq (cfg : AssetsConfig) (s : AssetsState) (address : String) (tokenId : ℕ) :
    removeAndIgnoreCollectible cfg s address tokenId
      = if (removeAndIgnoreIndividualCollectible cfg s (toChecksumAddress address)
              tokenId).collectibles.any
            (fun c => c.address = toChecksumAddress address)
        then removeAndIgnoreIndividualCollectible cfg s (toChecksumAddress address) tokenId
        else removeCollectibleContract cfg
              (removeAndIgnoreIndividualCollectible cfg s (toChecksumAddress address)
                tokenId)
              (toChecksumAddress address) := rfl

theorem rC_eq (cfg : AssetsConfig) (s : AssetsState) (address : String) (tokenId : ℕ) :
    removeCollectible cfg s address tokenId
      = if (removeIndividualCollectible cfg s (toChecksumAddress address)
              tokenId).collectibles.any
            (fun c => c.address = toChecksumAddress address)
        then removeIndividualCollectible cfg s (toChecksumAddress address) tokenId
        else removeCollectibleContract cfg
              (removeIndividualCollectible cfg s (toChecksumAddress address) tokenId)
              (toChecksumAddress address) := rfl

/-- C2: on every `addToken` call, if the active token list already contains an
entry whose address equals the checksummed input address, that (first such)
entry is replaced by the new field values at its original position — same
length, new entry at the matching index, every other index untouched;
otherwise the new entry is appended at the end.  The active `tokens`
projection and the keyed `allTokens` slice at `(selectedAddress, chainId)` are
both rewritten to the resulting list on every call. -/
theorem addToken_replacesInPlace_or_appends (cfg : AssetsConfig) (s : AssetsState)
    (address symbol : String) (decimals : ℤ) (image : Option String) :
    ((addToken cfg s address symbol decimals image).1).tokens
        = (addToken cfg s address symbol decimals image).2
      ∧ ((addToken cfg s address symbol decimals image).1).allTokens
            cfg.selectedAddress cfg.chainId
        = (addToken cfg s address symbol decimals image).2
      ∧ ((s.tokens.any fun t => t.address = toChecksumAddress address) = false →
          (addToken cfg s address symbol decimals image).2
            = s.tokens
                ++ [{ address := toChecksumAddress address, symbol, decimals, image }])
      ∧ ((s.tokens.any fun t => t.address = toChecksumAddress address) = true →
          ((addToken cfg s address symbol decimals image).2.length = s.tokens.length
            ∧ (addToken cfg s address symbol decimals image).2[
                  s.tokens.findIdx fun t => t.address = toChecksumAddress address]?
              = some { address := toChecksumAddress address, symbol, decimals, image }
            ∧ ∀ j, j ≠ (s.tokens.findIdx fun t => t.address = toChecksumAddress address) →
                (addToken cfg s address symbol decimals image).2[j]? = s.tokens[j]?)) := by
  have hsnd : (addToken cfg s address symbol decimals image).2
      = if s.tokens.any (fun t => t.address = toChecksumAddress address) then
          replaceFirst (fun t => t.address = toChecksumAddress address)
            { address := toChecksumAddress address, symbol, decimals, image } s.tokens
        else
          s.tokens ++ [{ address := toChecksumAddress address, symbol, decimals, image }] :=
    rfl
  refine ⟨rfl, ?_, ?_, ?_⟩
  · show updateSlice s.allTokens cfg.selectedAddress cfg.chainId
        (addToken cfg s address symbol decimals image).2 cfg.selectedAddress cfg.chainId
      = (addToken cfg s address symbol decimals image).2
    simp [updateSlice]
  · intro h
    rw [hsnd, if_neg]
    simp [h]
  · intro h
    rw [hsnd, if_pos (by simp [h])]
    refine ⟨replaceFirst_length _ _ _, replaceFirst_getElem_findIdx _ _ _ h,
      fun j hj => replaceFirst_getElem_ne _ _ _ j hj⟩

/-- Witness for C2 at concrete inputs: an append on the empty default state,
and an in-place replacement on a one-token state that already holds the
checksummed address. -/
theorem addToken_replacesInPlace_or_appends_witness :
    ((addToken ⟨"0xACC", "1"⟩ defaultAssetsState "0xaa" "A" 1 none).2
        = defaultAssetsState.tokens
            ++ [{ address := toChecksumAddress "0xaa", symbol := "A", decimals := 1,
                  image := none }])
      ∧ ((addToken ⟨"0xACC", "1"⟩
            { defaultAssetsState with tokens := [⟨"0xAA", "Z", 0, none⟩] }
            "0xaa" "A" 1 none).2.length
          = ({ defaultAssetsState with
                tokens := [(⟨"0xAA", "Z", 0, none⟩ : Token)] } : AssetsState).tokens.length) :=
  ⟨(addToken_replacesInPlace_or_appends ⟨"0xACC", "1"⟩ defaultAssetsState
      "0xaa" "A" 1 none).2.2.1 (by decide),
   ((addToken_replacesInPlace_or_appends ⟨"0xACC", "1"⟩
      { defaultAssetsState with tokens := [⟨"0xAA", "Z", 0, none⟩] }
      "0xaa" "A" 1 none).2.2.2 (by decide)).1⟩

/-- C7: `removeAndIgnoreToken` and `removeAndIgnoreCollectible` are idempotent
with respect to both lists: a second call with the same arguments leaves the
active list and the ignore list (and, for collectibles, the contracts list)
exactly as the first call left them, and — when the address was not already
ignored — the first call puts the entity's address into the ignore list
exactly once (once if it was active, zero times otherwise). -/
theorem removeAndIgnore_secondCall_noop (cfg : AssetsConfig) (s : AssetsState)
    (address : String) (tokenId : ℕ) :
    (removeAndIgnoreToken cfg (removeAndIgnoreToken cfg s address) address).tokens
        = (removeAndIgnoreToken cfg s address).tokens
      ∧ (removeAndIgnoreToken cfg
            (removeAndIgnoreToken cfg s address) address).ignoredTokens
        = (removeAndIgnoreToken cfg s address).ignoredTokens
      ∧ (s.ignoredTokens.countP (fun t => t.address = toChecksumAddress address) = 0 →
          (removeAndIgnoreToken cfg s address).ignoredTokens.countP
              (fun t => t.address = toChecksumAddress address)
            = if s.tokens.any (fun t => t.address = toChecksumAddress address)
              then 1 else 0)
      ∧ (removeAndIgnoreCollectible cfg
            (removeAndIgnoreCollectible cfg s address tokenId) address tokenId).collectibles
        = (removeAndIgnoreCollectible cfg s address tokenId).collectibles
      ∧ (removeAndIgnoreCollectible cfg
            (removeAndIgnoreCollectible cfg s address tokenId) address
            tokenId).ignoredCollectibles
        = (removeAndIgnoreCollectible cfg s address tokenId).ignoredCollectibles
      ∧ (removeAndIgnoreCollectible cfg
            (removeAndIgnoreCollectible cfg s address tokenId) address
            tokenId).collectibleContracts
        = (removeAndIgnoreCollectible cfg s address tokenId).collectibleContracts := by
  have hcc : toChecksumAddress (toChecksumAddress address) = toChecksumAddress address :=
    toChecksumAddress_idem address
  -- tokens: after the first call no token with the checksummed address remains
  have htok1 : (removeAndIgnoreToken cfg s address).tokens
      = s.tokens.filter (fun t => t.address ≠ toChecksumAddress address) :=
    rAIT_tokens_eq cfg s address
  have hany : ((removeAndIgnoreToken cfg s address).tokens.any
      (fun t => t.address = toChecksumAddress address)) = false := by
    rw [htok1, List.any_eq_false]
    intro t ht
    have := (List.mem_filter.mp ht).2
    simpa using this
  have hfix : (removeAndIgnoreToken cfg s address).tokens.filter
      (fun t => t.address ≠ toChecksumAddress address)
      = (removeAndIgnoreToken cfg s address).tokens := by
    rw [htok1]
    exact List.filter_eq_self.mpr (fun x hx => (List.mem_filter.mp hx).2)
  refine ⟨?_, ?_, ?_, ?_, ?_, ?_⟩
  · rw [rAIT_tokens_eq, hfix]
  · rw [rAIT_ignored_eq, if_neg]
    simp [hany]
  · intro h0
    have hig : (s.ignoredTokens.any (fun t => t.address = toChecksumAddress address))
        = false := by
      rw [List.any_eq_false]
      exact List.countP_eq_zero.mp h0
    rw [rAIT_ignored_eq]
    by_cases hst : (s.tokens.any (fun t => t.address = toChecksumAddress address)) = true
    · rw [if_pos (by simp [hst, hig]), if_pos hst, List.countP_append, h0]
      rcases hfe : s.tokens.filter (fun t => t.address = toChecksumAddress address) with
        _ | ⟨x, xs⟩
      · exfalso
        rw [List.any_eq_true] at hst
        obtain ⟨t, ht, hpt⟩ := hst
        have : t ∈ s.tokens.filter (fun t => t.address = toChecksumAddress address) :=
          List.mem_filter.mpr ⟨ht, hpt⟩
        rw [hfe] at this
        simp at this
      · have hx : (fun t : Token => decide (t.address = toChecksumAddress address)) x
            = true := by
          have : x ∈ s.tokens.filter (fun t => t.address = toChecksumAddress address) := by
            rw [hfe]; exact List.mem_cons_self x xs
          exact (List.mem_filter.mp this).2
        rw [hfe]
        simp [List.countP_cons, hx]
    · have hst' : (s.tokens.any (fun t => t.address = toChecksumAddress address))
          = false := by
        simpa using hst
      rw [if_neg (by simp [hst']), if_neg (by simp [hst'])]
      exact h0
  -- collectibles: the first call leaves no (address, tokenId) entry active and
  -- the second call's inner filter, ignore-list update and contract cleanup are
  -- all no-ops
  all_goals {
    have hcoll1 : (removeAndIgnoreCollectible cfg s address tokenId).collectibles
        = (removeAndIgnoreIndividualCollectible cfg s (toChecksumAddress address)
            tokenId).collectibles := by
      rw [rAIC_eq]
      by_cases hb : ((removeAndIgnoreIndividualCollectible cfg s
          (toChecksumAddress address) tokenId).collectibles.any
            (fun c => c.address = toChecksumAddress address)) = true
      · rw [if_pos hb]
      · rw [if_neg (by simpa using hb), rCC_collectibles_eq]
    have hcfilter : (removeAndIgnoreCollectible cfg s address tokenId).collectibles
        = s.collectibles.filter
            (fun c => ¬ (c.address = toChecksumAddress address ∧ c.tokenId = tokenId)) := by
      rw [hcoll1, rAIIC_collectibles_eq, hcc]
    have hanyc : ((removeAndIgnoreCollectible cfg s address tokenId).collectibles.any
        (fun c => c.address = toChecksumAddress address ∧ c.tokenId = tokenId)) = false := by
      rw [hcfilter, List.any_eq_false]
      intro c hc
      have hmem := (List.mem_filter.mp hc).2
      simp only [decide_eq_true_eq] at hmem ⊢
      exact hmem
    have hfixc : (removeAndIgnoreCollectible cfg s address tokenId).collectibles.filter
        (fun c => ¬ (c.address = toChecksumAddress address ∧ c.tokenId = tokenId))
        = (removeAndIgnoreCollectible cfg s address tokenId).collectibles := by
      rw [hcfilter]
      exact List.filter_eq_self.mpr (fun x hx => (List.mem_filter.mp hx).2)
    have h2coll : (removeAndIgnoreIndividualCollectible cfg
        (removeAndIgnoreCollectible cfg s address tokenId) (toChecksumAddress address)
        tokenId).collectibles
        = (removeAndIgnoreCollectible cfg s address tokenId).collectibles := by
      rw [rAIIC_collectibles_eq, hcc, hfixc]
    have h2ign : (removeAndIgnoreIndividualCollectible cfg
        (removeAndIgnoreCollectible cfg s address tokenId) (toChecksumAddress address)
        tokenId).ignoredCollectibles
        = (removeAndIgnoreCollectible cfg s address tokenId).ignoredCollectibles := by
      rw [rAIIC_ignored_eq, hcc, if_neg]
      rintro ⟨h1, -⟩
      rw [hanyc] at h1
      exact Bool.false_ne_true h1
    have h2contracts : (removeAndIgnoreIndividualCollectible cfg
        (removeAndIgnoreCollectible cfg s address tokenId) (toChecksumAddress address)
        tokenId).collectibleContracts
        = (removeAndIgnoreCollectible cfg s address tokenId).collectibleContracts :=
      rAIIC_contracts_eq _ _ _ _
    -- whether the second call's outer branch removes the contract again, the
    -- outcome matches the first call's result
    rw [rAIC_eq cfg (removeAndIgnoreCollectible cfg s address tokenId) address tokenId]
    by_cases hb2 : ((removeAndIgnoreIndividualCollectible cfg
        (removeAndIgnoreCollectible cfg s address tokenId) (toChecksumAddress address)
        tokenId).collectibles.any (fun c => c.address = toChecksumAddress address)) = true
    · rw [if_pos hb2]
      first
        | exact h2coll
        | exact h2ign
        | exact h2contracts
    · rw [if_neg (by simpa using hb2)]
      -- the second pass may re-run the contract filter; it is a no-op because
      -- the first call already removed every matching contract
      have hb2' : ((removeAndIgnoreCollectible cfg s address
          tokenId).collectibles.any
            (fun c => c.address = toChecksumAddress address)) = false := by
        rw [← h2coll]
        simpa using hb2
      have hb1 : ((removeAndIgnoreIndividualCollectible cfg s
          (toChecksumAddress address) tokenId).collectibles.any
            (fun c => c.address = toChecksumAddress address)) = false := by
        rw [← hcoll1]
        exact hb2'
      have hfirst : (removeAndIgnoreCollectible cfg s address
          tokenId).collectibleContracts
          = (removeAndIgnoreIndividualCollectible cfg s (toChecksumAddress address)
              tokenId).collectibleContracts.filter
              (fun c => ¬ c.address = toChecksumAddress address) := by
        rw [rAIC_eq, if_neg (by simp [hb1]), rCC_contracts_eq, hcc]
      first
        | (rw [rCC_collectibles_eq]; exact h2coll)
        | (rw [rCC_ignored_eq]; exact h2ign)
        | (rw [rCC_contracts_eq, hcc, h2contracts, hfirst]
           exact List.filter_eq_self.mpr (fun x hx => (List.mem_filter.mp hx).2))
  }

/-- Witness for C7 at a concrete input: one active token with the checksummed
address and an empty ignore list — the second call is a no-op and the first
call ignores the address exactly once. -/
theorem removeAndIgnore_secondCall_noop_witness :
    ((removeAndIgnoreToken ⟨"0xACC", "1"⟩
          (removeAndIgnoreToken ⟨"0xACC", "1"⟩
            { defaultAssetsState with tokens := [⟨"0xAA", "A", 1, none⟩] } "0xaa")
          "0xaa").tokens
        = (removeAndIgnoreToken ⟨"0xACC", "1"⟩
            { defaultAssetsState with tokens := [⟨"0xAA", "A", 1, none⟩] } "0xaa").tokens)
      ∧ ((removeAndIgnoreToken ⟨"0xACC", "1"⟩
            { defaultAssetsState with tokens := [⟨"0xAA", "A", 1, none⟩] }
            "0xaa").ignoredTokens.countP
              (fun t => t.address = toChecksumAddress "0xaa")
          = if ({ defaultAssetsState with
                  tokens := [(⟨"0xAA", "A", 1, none⟩ : Token)] } : AssetsState).tokens.any
                (fun t => t.address = toChecksumAddress "0xaa")
            then 1 else 0) :=
  ⟨(removeAndIgnore_secondCall_noop ⟨"0xACC", "1"⟩
      { defaultAssetsState with tokens := [⟨"0xAA", "A", 1, none⟩] } "0xaa" 0).1,
   (removeAndIgnore_secondCall_noop ⟨"0xACC", "1"⟩
      { defaultAssetsState with tokens := [⟨"0xAA", "A", 1, none⟩] } "0xaa" 0).2.2.1
     (by decide)⟩

/-- C3: when exactly one active collectible has the checksummed contract
address (the filter by that address yields a single entry) and that entry has
the removed token id, both `removeCollectible` and `removeAndIgnoreCollectible`
also remove the contract's entry from the active collectible-contracts list
(no entry with the address remains); when some other active collectible shares
the contract address (different token id), the contracts list is left exactly
as it was. -/
theorem removeCollectible_lastRemovesContract (cfg : AssetsConfig) (s : AssetsState)
    (address : String) (tokenId : ℕ) (coll : Collectible) :
    ((s.collectibles.filter (fun c => c.address = toChecksumAddress address) = [coll]) →
        coll.tokenId = tokenId →
        ((∀ c ∈ (removeCollectible cfg s address tokenId).collectibleContracts,
            c.address ≠ toChecksumAddress address)
          ∧ (∀ c ∈ (removeAndIgnoreCollectible cfg s address tokenId).collectibleContracts,
              c.address ≠ toChecksumAddress address)))
      ∧ ((∃ c ∈ s.collectibles,
            c.address = toChecksumAddress address ∧ c.tokenId ≠ tokenId) →
          ((removeCollectible cfg s address tokenId).collectibleContracts
              = s.collectibleContracts
            ∧ (removeAndIgnoreCollectible cfg s address tokenId).collectibleContracts
              = s.collectibleContracts)) := by
  have hcc : toChecksumAddress (toChecksumAddress address) = toChecksumAddress address :=
    toChecksumAddress_idem address
  constructor
  · intro hone htid
    -- no collectible with the address survives either removal
    have hgen : ∀ c ∈ s.collectibles, c.address = toChecksumAddress address →
        c.tokenId = tokenId := by
      intro c hcs haddr
      have hcf : c ∈ s.collectibles.filter
          (fun c => c.address = toChecksumAddress address) :=
        List.mem_filter.mpr ⟨hcs, by simp [haddr]⟩
      rw [hone] at hcf
      have : c = coll := by simpa using hcf
      rw [this, htid]
    have hno1 : ((removeIndividualCollectible cfg s (toChecksumAddress address)
        tokenId).collectibles.any (fun c => c.address = toChecksumAddress address))
        = false := by
      rw [rIC_collectibles_eq, hcc, List.any_eq_false]
      intro c hcmem
      rcases List.mem_filter.mp hcmem with ⟨hcs, hcp⟩
      simp only [decide_eq_true_eq] at hcp ⊢
      intro haddr
      exact hcp ⟨haddr, hgen c hcs haddr⟩
    have hno2 : ((removeAndIgnoreIndividualCollectible cfg s (toChecksumAddress address)
        tokenId).collectibles.any (fun c => c.address = toChecksumAddress address))
        = false := by
      rw [rAIIC_collectibles_eq, hcc, List.any_eq_false]
      intro c hcmem
      rcases List.mem_filter.mp hcmem with ⟨hcs, hcp⟩
      simp only [decide_eq_true_eq] at hcp ⊢
      intro haddr
      exact hcp ⟨haddr, hgen c hcs haddr⟩
    constructor
    · rw [rC_eq, if_neg (by simp [hno1]), rCC_contracts_eq, hcc, rIC_contracts_eq]
      intro c hcmem
      have := (List.mem_filter.mp hcmem).2
      simpa using this
    · rw [rAIC_eq, if_neg (by simp [hno2]), rCC_contracts_eq, hcc, rAIIC_contracts_eq]
      intro c hcmem
      have := (List.mem_filter.mp hcmem).2
      simpa using this
  · rintro ⟨c, hcmem, haddr, htid⟩
    have hkeep : (fun x : Collectible =>
        decide ¬(x.address = toChecksumAddress address ∧ x.tokenId = tokenId)) c
        = true := by
      simp only [decide_eq_true_eq]
      rintro ⟨-, h⟩
      exact htid h
    have hyes1 : ((removeIndividualCollectible cfg s (toChecksumAddress address)
        tokenId).collectibles.any (fun c => c.address = toChecksumAddress address))
        = true := by
      rw [rIC_collectibles_eq, hcc, List.any_eq_true]
      exact ⟨c, List.mem_filter.mpr ⟨hcmem, hkeep⟩, by simp [haddr]⟩
    have hyes2 : ((removeAndIgnoreIndividualCollectible cfg s (toChecksumAddress address)
        tokenId).collectibles.any (fun c => c.address = toChecksumAddress address))
        = true := by
      rw [rAIIC_collectibles_eq, hcc, List.any_eq_true]
      exact ⟨c, List.mem_filter.mpr ⟨hcmem, hkeep⟩, by simp [haddr]⟩
    exact ⟨by rw [rC_eq, if_pos hyes1, rIC_contracts_eq],
      by rw [rAIC_eq, if_pos hyes2, rAIIC_contracts_eq]⟩

/-- Witness for C3 at concrete inputs: removing the last collectible of
contract `0xAA` removes its contract entry (the surviving entry is the
unrelated `0xBB` one), while removing one of two collectibles of `0xAA`
leaves the contracts list untouched. -/
theorem removeCollectible_lastRemovesContract_witness :
    ((⟨"0xBB", none, none, none, none, none⟩ : CollectibleContract).address
        ≠ toChecksumAddress "0xaa")
      ∧ (removeCollectible ⟨"0xACC", "1"⟩
            { defaultAssetsState with
              collectibles := [⟨"0xAA", 5, none, none, none⟩, ⟨"0xAA", 6, none, none, none⟩]
              collectibleContracts := [⟨"0xAA", none, none, none, none, none⟩] }
            "0xaa" 5).collectibleContracts
        = ({ defaultAssetsState with
              collectibles := [(⟨"0xAA", 5, none, none, none⟩ : Collectible),
                ⟨"0xAA", 6, none, none, none⟩]
              collectibleContracts :=
                [(⟨"0xAA", none, none, none, none, none⟩ : CollectibleContract)] }
            : AssetsState).collectibleContracts :=
  ⟨((removeCollectible_lastRemovesContract ⟨"0xACC", "1"⟩
      { defaultAssetsState with
        collectibles := [⟨"0xAA", 5, none, none, none⟩]
        collectibleContracts := [⟨"0xAA", none, none, none, none, none⟩,
          ⟨"0xBB", none, none, none, none, none⟩] }
      "0xaa" 5 ⟨"0xAA", 5, none, none, none⟩).1 (by decide) (by decide)).1
      ⟨"0xBB", none, none, none, none, none⟩ (by decide),
   ((removeCollectible_lastRemovesContract ⟨"0xACC", "1"⟩
      { defaultAssetsState with
        collectibles := [⟨"0xAA", 5, none, none, none⟩, ⟨"0xAA", 6, none, none, none⟩]
        collectibleContracts := [⟨"0xAA", none, none, none, none, none⟩] }
      "0xaa" 5 ⟨"0xAA", 5, none, none, none⟩).2
      ⟨⟨"0xAA", 6, none, none, none⟩, by decide, by decide, by decide⟩).1⟩

theorem rAIC_collectibles_eq (cfg : AssetsConfig) (s : AssetsState)
    (address : String) (tokenId : ℕ) :
    (removeAndIgnoreCollectible cfg s address tokenId).collectibles
      = s.collectibles.filter
          (fun c => ¬ (c.address = toChecksumAddress address ∧ c.tokenId = tokenId)) := by
  rw [rAIC_eq]
  by_cases hb : ((removeAndIgnoreIndividualCollectible cfg s (toChecksumAddress address)
      tokenId).collectibles.any (fun c => c.address = toChecksumAddress address)) = true
  · rw [if_pos hb, rAIIC_collectibles_eq, toChecksumAddress_idem]
  · rw [if_neg (by simpa using hb), rCC_collectibles_eq, rAIIC_collectibles_eq,
      toChecksumAddress_idem]

theorem aIC_contracts_eq (cfg : AssetsConfig) (s : AssetsState) (address : String)
    (tokenId : ℕ) (opts : Option CollectibleInformation)
    (ri : String → ℕ → CollectibleInformation) :
    (addIndividualCollectible cfg s address tokenId opts ri).collectibleContracts
      = s.collectibleContracts := by
  unfold addIndividualCollectible
  simp only []
  split <;> rfl

theorem addIndividualCollectible_mem (cfg : AssetsConfig) (s : AssetsState)
    (address : String) (tokenId : ℕ) (opts : Option CollectibleInformation)
    (ri : String → ℕ → CollectibleInformation) :
    ∃ c ∈ (addIndividualCollectible cfg s address tokenId opts ri).collectibles,
      c.address = toChecksumAddress address ∧ c.tokenId = tokenId := by
  unfold addIndividualCollectible
  by_cases h : (s.collectibles.any
      (fun c => c.address = toChecksumAddress address ∧ c.tokenId = tokenId)) = true
  · rw [if_pos (by simpa using h)]
    rw [List.any_eq_true] at h
    obtain ⟨c, hc, hp⟩ := h
    exact ⟨c, hc, by simpa using hp⟩
  · rw [if_neg (by simpa using h)]
    refine ⟨_, List.mem_append_right _ (List.mem_singleton_self _), rfl, rfl⟩

theorem addCollectible_eq (cfg : AssetsConfig) (s : AssetsState) (address : String)
    (tokenId : ℕ) (opts : Option CollectibleInformation) (detection : Bool)
    (rc : String → ContractInformation) (ri : String → ℕ → CollectibleInformation) :
    addCollectible cfg s address tokenId opts detection rc ri
      = if ((addCollectibleContract cfg s (toChecksumAddress address) detection rc).2.any
            (fun c => c.address = toChecksumAddress address))
        then addIndividualCollectible cfg
              (addCollectibleContract cfg s (toChecksumAddress address) detection rc).1
              (toChecksumAddress address) tokenId opts ri
        else (addCollectibleContract cfg s (toChecksumAddress address) detection rc).1 := rfl

theorem addCollectibleContract_success (cfg : AssetsConfig) (s : AssetsState)
    (address : String) (detection : Bool) (rc : String → ContractInformation)
    (nm sy iu ds ts : Option String)
    (hnone : (s.collectibleContracts.any
        (fun c => c.address = toChecksumAddress address)) = false)
    (hres : rc (toChecksumAddress address)
        = ContractInformation.fields nm sy iu ds ts)
    (hok : ¬ (detection = true ∧ falsyStr iu = true)) :
    (addCollectibleContract cfg s address detection rc).2
        = s.collectibleContracts
            ++ [{ address := toChecksumAddress address, name := nm, logo := iu,
                  symbol := sy, description := ds, totalSupply := ts }]
      ∧ (addCollectibleContract cfg s address detection rc).1.collectibleContracts
        = s.collectibleContracts
            ++ [{ address := toChecksumAddress address, name := nm, logo := iu,
                  symbol := sy, description := ds, totalSupply := ts }]
      ∧ (addCollectibleContract cfg s address detection rc).1.collectibles
        = s.collectibles := by
  unfold addCollectibleContract
  rw [if_neg (by simp [hnone])]
  simp only [hres]
  rw [if_neg (by simpa using hok)]
  exact ⟨rfl, rfl, rfl⟩

theorem addCollectibleContract_detection_needsImage (cfg : AssetsConfig)
    (s : AssetsState) (address : String) (rc : String → ContractInformation)
    (nm sy iu ds ts : Option String)
    (hnone : (s.collectibleContracts.any
        (fun c => c.address = toChecksumAddress address)) = false)
    (hres : rc (toChecksumAddress address)
        = ContractInformation.fields nm sy iu ds ts)
    (hfalsy : falsyStr iu = true) :
    addCollectibleContract cfg s address true rc = (s, s.collectibleContracts) := by
  unfold addCollectibleContract
  rw [if_neg (by simp [hnone])]
  simp only [hres]
  rw [if_pos (by simp [hfalsy])]

theorem addCollectibleContract_empty_noop (cfg : AssetsConfig) (s : AssetsState)
    (address : String) (detection : Bool) (rc : String → ContractInformation)
    (hnone : (s.collectibleContracts.any
        (fun c => c.address = toChecksumAddress address)) = false)
    (hres : rc (toChecksumAddress address) = ContractInformation.empty) :
    addCollectibleContract cfg s address detection rc = (s, s.collectibleContracts) := by
  unfold addCollectibleContract
  rw [if_neg (by simp [hnone])]
  simp only [hres]

/-- C4: in a collectible-detection pass, (a) an item whose checksummed
contract address and numeric token id match an `ignoredCollectibles` entry is
skipped — the state is untouched; (b) a non-ignored item whose contract is new
and whose resolved contract metadata carries a non-empty image URL is added
(the collectible ends up in the active list); (c) under `detection = true` a
new contract whose resolved metadata lacks an image URL is rejected and
nothing is added — likewise (e) when metadata resolution fails entirely
(empty object), for any mode; (d) a manual (non-detection) `addCollectible`
accepts any non-empty resolved metadata, image or not: the contract entry is
created. -/
theorem detectCollectibles_ignoreList_and_imageHeuristic (cfg : AssetsConfig)
    (s : AssetsState) (rc : String → ContractInformation)
    (ri : String → ℕ → CollectibleInformation) (item : ApiCollectibleResponse)
    (address : String) (tokenId : ℕ) (opts : Option CollectibleInformation)
    (nm sy ds ts iu : Option String) (u : String) (detection : Bool) :
    ((s.ignoredCollectibles.any (fun c =>
          c.address = toChecksumAddress item.contractAddress
            ∧ c.tokenId = item.token_id)) = true →
        detectCollectiblesStep cfg rc ri s item = s)
      ∧ ((s.ignoredCollectibles.any (fun c =>
            c.address = toChecksumAddress item.contractAddress
              ∧ c.tokenId = item.token_id)) = false →
          (s.collectibleContracts.any (fun c =>
            c.address = toChecksumAddress item.contractAddress)) = false →
          rc (toChecksumAddress item.contractAddress)
            = ContractInformation.fields nm sy (some u) ds ts →
          u ≠ "" →
          ∃ c ∈ (detectCollectiblesStep cfg rc ri s item).collectibles,
            c.address = toChecksumAddress item.contractAddress
              ∧ c.tokenId = item.token_id)
      ∧ ((s.ignoredCollectibles.any (fun c =>
            c.address = toChecksumAddress item.contractAddress
              ∧ c.tokenId = item.token_id)) = false →
          (s.collectibleContracts.any (fun c =>
            c.address = toChecksumAddress item.contractAddress)) = false →
          rc (toChecksumAddress item.contractAddress)
            = ContractInformation.fields nm sy iu ds ts →
          falsyStr iu = true →
          detectCollectiblesStep cfg rc ri s item = s)
      ∧ ((s.collectibleContracts.any (fun c =>
            c.address = toChecksumAddress address)) = false →
          rc (toChecksumAddress address) = ContractInformation.fields nm sy iu ds ts →
          ∃ c ∈ (addCollectible cfg s address tokenId opts false rc
              ri).collectibleContracts,
            c.address = toChecksumAddress address)
      ∧ ((s.collectibleContracts.any (fun c =>
            c.address = toChecksumAddress address)) = false →
          rc (toChecksumAddress address) = ContractInformation.empty →
          addCollectible cfg s address tokenId opts detection rc ri = s) := by
  have hccA : toChecksumAddress (toChecksumAddress item.contractAddress)
      = toChecksumAddress item.contractAddress := toChecksumAddress_idem _
  have hccB : toChecksumAddress (toChecksumAddress address)
      = toChecksumAddress address := toChecksumAddress_idem _
  refine ⟨?_, ?_, ?_, ?_, ?_⟩
  · intro h
    unfold detectCollectiblesStep
    simp only []
    rw [if_pos h]
  · intro hnotig hnoc hres hu
    unfold detectCollectiblesStep
    simp only []
    rw [if_neg (by rw [hnotig]; exact Bool.false_ne_true)]
    rw [addCollectible_eq]
    have hsucc := addCollectibleContract_success cfg s
      (toChecksumAddress item.contractAddress) true rc nm sy (some u) ds ts
      (by rw [hccA]; exact hnoc) (by rw [hccA]; exact hres)
      (by simp [falsyStr, hu])
    rw [if_pos (by rw [hsucc.1]; simp [hccA])]
    have hmem := addIndividualCollectible_mem cfg
      (addCollectibleContract cfg s (toChecksumAddress item.contractAddress) true rc).1
      (toChecksumAddress item.contractAddress) item.token_id
      (some { description := item.description, image := item.image_original_url,
              name := item.name }) ri
    rw [hccA] at hmem
    exact hmem
  · intro hnotig hnoc hres hfalsy
    unfold detectCollectiblesStep
    simp only []
    rw [if_neg (by rw [hnotig]; exact Bool.false_ne_true)]
    rw [addCollectible_eq]
    have hno := addCollectibleContract_detection_needsImage cfg s
      (toChecksumAddress item.contractAddress) rc nm sy iu ds ts
      (by rw [hccA]; exact hnoc) (by rw [hccA]; exact hres) hfalsy
    rw [hno]
    rw [if_neg (by simpa using hnoc)]
  · intro hnoc hres
    rw [addCollectible_eq]
    have hsucc := addCollectibleContract_success cfg s
      (toChecksumAddress address) false rc nm sy iu ds ts
      (by rw [hccB]; exact hnoc) (by rw [hccB]; exact hres)
      (by simp)
    rw [if_pos (by rw [hsucc.1]; simp [hccB])]
    rw [aIC_contracts_eq, hsucc.2.1, hccB]
    exact ⟨_, List.mem_append_right _ (List.mem_singleton_self _), rfl⟩
  · intro hnoc hres
    rw [addCollectible_eq]
    have hno := addCollectibleContract_empty_noop cfg s
      (toChecksumAddress address) detection rc
      (by rw [hccB]; exact hnoc) (by rw [hccB]; exact hres)
    rw [hno]
    rw [if_neg (by simpa using hnoc)]

/-- Witness for C4 at concrete inputs: an ignored `(0xCC, 7)` item is skipped;
a detection add whose resolver has no image URL is dropped; a contract whose
metadata resolution failed entirely is dropped in any mode. -/
theorem detectCollectibles_ignoreList_and_imageHeuristic_witness :
    (detectCollectiblesStep ⟨"0xACC", "1"⟩
        (fun _ => ContractInformation.fields (some "N") none (some "img") none none)
        (fun _ _ => {})
        { defaultAssetsState with
          ignoredCollectibles := [⟨"0xCC", 7, none, none, none⟩] }
        ⟨7, some "i", some "n", some "d", "0xcc"⟩
      = { defaultAssetsState with
          ignoredCollectibles := [⟨"0xCC", 7, none, none, none⟩] })
      ∧ (detectCollectiblesStep ⟨"0xACC", "1"⟩
          (fun _ => ContractInformation.fields (some "N") (some "S") none none none)
          (fun _ _ => {})
          defaultAssetsState ⟨7, some "i", some "n", some "d", "0xcc"⟩
        = defaultAssetsState)
      ∧ (addCollectible ⟨"0xACC", "1"⟩ defaultAssetsState "0xcc" 7 none true
          (fun _ => ContractInformation.empty) (fun _ _ => {})
        = defaultAssetsState) :=
  ⟨(detectCollectibles_ignoreList_and_imageHeuristic ⟨"0xACC", "1"⟩
      { defaultAssetsState with
        ignoredCollectibles := [⟨"0xCC", 7, none, none, none⟩] }
      (fun _ => ContractInformation.fields (some "N") none (some "img") none none)
      (fun _ _ => {}) ⟨7, some "i", some "n", some "d", "0xcc"⟩
      "0xcc" 7 none none none none none none "" false).1 (by decide),
   (detectCollectibles_ignoreList_and_imageHeuristic ⟨"0xACC", "1"⟩
      defaultAssetsState
      (fun _ => ContractInformation.fields (some "N") (some "S") none none none)
      (fun _ _ => {}) ⟨7, some "i", some "n", some "d", "0xcc"⟩
      "0xcc" 7 none (some "N") (some "S") none none none "" false).2.2.1
      (by decide) (by decide) rfl rfl,
   (detectCollectibles_ignoreList_and_imageHeuristic ⟨"0xACC", "1"⟩
      defaultAssetsState (fun _ => ContractInformation.empty)
      (fun _ _ => {}) ⟨7, some "i", some "n", some "d", "0xcc"⟩
      "0xcc" 7 none none none none none none "" true).2.2.2.2
      (by decide) rfl⟩

/-- Counterexample to C6 as stated: `addToken` never consults or prunes
`ignoredTokens`, so adding a token, removing-and-ignoring it, and adding it
again leaves an entry with the same address in both the active `tokens` list
and `ignoredTokens` simultaneously — the claimed mutual-exclusivity invariant
is not preserved by `addToken` re-adding a previously ignored address. -/
theorem addToken_readds_ignored_counterexample :
    (let s1 := (addToken ⟨"0xACC", "1"⟩ defaultAssetsState "0xaa" "ABC" 18 none).1
     let s2 := removeAndIgnoreToken ⟨"0xACC", "1"⟩ s1 "0xaa"
     let s3 := (addToken ⟨"0xACC", "1"⟩ s2 "0xaa" "ABC" 18 none).1
     s3.tokens.any (fun t =>
       s3.ignoredTokens.any (fun u => u.address = t.address))) = true := by
  decide

/-- C6 amended: the removeAndIgnore operations do establish exclusivity for
the removed entity — after `removeAndIgnoreToken` no active token carries the
checksummed address, and after `removeAndIgnoreCollectible` no active
collectible carries the checksummed `(address, tokenId)` pair — but `addToken`
and `addTokens` leave `ignoredTokens` completely untouched, so re-adding a
previously ignored address puts the entity in both lists (as the
counterexample shows); the invariant holds only until an ignored entity is
re-added. -/
theorem removeAndIgnore_excludes_addToken_keepsIgnored (cfg : AssetsConfig)
    (s : AssetsState) (address symbol : String) (decimals : ℤ)
    (image : Option String) (tokenId : ℕ) (tokensToAdd : List Token) :
    (∀ t ∈ (removeAndIgnoreToken cfg s address).tokens,
        t.address ≠ toChecksumAddress address)
      ∧ (∀ c ∈ (removeAndIgnoreCollectible cfg s address tokenId).collectibles,
          ¬ (c.address = toChecksumAddress address ∧ c.tokenId = tokenId))
      ∧ (addToken cfg s address symbol decimals image).1.ignoredTokens
        = s.ignoredTokens
      ∧ (addTokens cfg s tokensToAdd).1.ignoredTokens = s.ignoredTokens := by
  refine ⟨?_, ?_, rfl, rfl⟩
  · intro t ht
    rw [rAIT_tokens_eq] at ht
    have := (List.mem_filter.mp ht).2
    simpa using this
  · intro c hc
    rw [rAIC_collectibles_eq] at hc
    have hmem := (List.mem_filter.mp hc).2
    simp only [decide_eq_true_eq] at hmem
    exact hmem

/-- Witness for the amended C6 at a concrete input: after removing-and-ignoring
`0xaa` from a two-token state, the surviving token's address differs from the
checksummed address, and a subsequent `addToken` leaves the ignore list as it
was. -/
theorem removeAndIgnore_excludes_addToken_keepsIgnored_witness :
    ((⟨"0xBB", "B", 2, none⟩ : Token).address ≠ toChecksumAddress "0xaa")
      ∧ (addToken ⟨"0xACC", "1"⟩
            { defaultAssetsState with
              tokens := [⟨"0xAA", "A", 1, none⟩]
              ignoredTokens := [⟨"0xAA", "A", 1, none⟩] }
            "0xaa" "A" 1 none).1.ignoredTokens
        = ({ defaultAssetsState with
              tokens := [(⟨"0xAA", "A", 1, none⟩ : Token)]
              ignoredTokens := [(⟨"0xAA", "A", 1, none⟩ : Token)] }
            : AssetsState).ignoredTokens :=
  ⟨(removeAndIgnore_excludes_addToken_keepsIgnored ⟨"0xACC", "1"⟩
      { defaultAssetsState with
        tokens := [⟨"0xAA", "A", 1, none⟩, ⟨"0xBB", "B", 2, none⟩] }
      "0xaa" "A" 1 none 0 []).1 ⟨"0xBB", "B", 2, none⟩ (by decide),
   (removeAndIgnore_excludes_addToken_keepsIgnored ⟨"0xACC", "1"⟩
      { defaultAssetsState with
        tokens := [⟨"0xAA", "A", 1, none⟩]
        ignoredTokens := [⟨"0xAA", "A", 1, none⟩] }
      "0xaa" "A" 1 none 0 []).2.2.1⟩

theorem addToken_mem (cfg : AssetsConfig) (s : AssetsState)
    (address symbol : String) (decimals : ℤ) (image : Option String) :
    ∃ t ∈ (addToken cfg s address symbol decimals image).2,
      t.address = toChecksumAddress address := by
  unfold addToken
  simp only []
  by_cases h : (s.tokens.any fun t => decide (t.address = toChecksumAddress address))
      = true
  · rw [if_pos h]
    exact ⟨_, mem_replaceFirst_self _ _ _ h, rfl⟩
  · rw [if_neg h]
    exact ⟨_, List.mem_append_right _ (List.mem_singleton_self _), rfl⟩

/-- Counterexample to C1 as stated: for the valid ERC20 asset with the
all-lowercase address below, `watchAsset` followed by `acceptWatchAsset`
resolves the promise with the address exactly as supplied — which is NOT the
checksummed address (the listener resolves with `meta.asset.address`, the raw
stored payload; only `addToken` checksums). -/
theorem watchAsset_accept_resolvesRawAddress_counterexample :
    (watchAsset defaultAssetsState
        ⟨"0xabcdefabcdefabcdefabcdefabcdefabcdefabcd", "ABC", 18, none⟩
        "ERC20" "id1" 0).validationError = none
      ∧ (acceptWatchAsset ⟨"0xACC", "1"⟩
          (watchAsset defaultAssetsState
            ⟨"0xabcdefabcdefabcdefabcdefabcdefabcdefabcd", "ABC", 18, none⟩
            "ERC20" "id1" 0).state "id1").finishedEvent.map settleWatchPromise
        = some (PromiseOutcome.resolved "0xabcdefabcdefabcdefabcdefabcdefabcdefabcd")
      ∧ "0xabcdefabcdefabcdefabcdefabcdefabcdefabcd"
        ≠ toChecksumAddress "0xabcdefabcdefabcdefabcdefabcdefabcdefabcd" := by
  decide

/-- C1 amended: for every valid ERC20 asset and fresh suggestion id,
`watchAsset` followed by `acceptWatchAsset(id)` resolves the returned promise
with the asset's address exactly as supplied in the watch request (which
equals the checksummed address only when the caller already supplied it
checksummed), leaves a token with the checksummed address present in the
active token list, and removes the suggestion from the pending list; followed
instead by `rejectWatchAsset(id)` it rejects the promise with the
user-rejected message, leaves the active token list exactly as it was (so the
token stays absent), and removes the suggestion from the pending list. -/
theorem watchAsset_acceptReject_flow (cfg : AssetsConfig) (s : AssetsState)
    (asset : Token) (id : String) (time : ℕ)
    (hval : validateTokenToWatch asset = Except.ok ())
    (hfresh : ∀ m ∈ s.suggestedAssets, m.id ≠ id) :
    (watchAsset s asset "ERC20" id time).validationError = none
      ∧ (acceptWatchAsset cfg (watchAsset s asset "ERC20" id time).state
          id).thrownError = none
      ∧ (acceptWatchAsset cfg (watchAsset s asset "ERC20" id time).state
          id).finishedEvent.map settleWatchPromise
        = some (PromiseOutcome.resolved asset.address)
      ∧ (∃ t ∈ (acceptWatchAsset cfg (watchAsset s asset "ERC20" id time).state
            id).state.tokens, t.address = toChecksumAddress asset.address)
      ∧ (∀ m ∈ (acceptWatchAsset cfg (watchAsset s asset "ERC20" id time).state
            id).state.suggestedAssets, m.id ≠ id)
      ∧ (rejectWatchAsset (watchAsset s asset "ERC20" id time).state id).2.map
          settleWatchPromise
        = some (PromiseOutcome.rejectedWith "User rejected to watch the asset.")
      ∧ (rejectWatchAsset (watchAsset s asset "ERC20" id time).state id).1.tokens
        = s.tokens
      ∧ (∀ m ∈ (rejectWatchAsset (watchAsset s asset "ERC20" id time).state
            id).1.suggestedAssets, m.id ≠ id) := by
  have hw : watchAsset s asset "ERC20" id time
      = { state := { s with suggestedAssets :=
            s.suggestedAssets ++ [⟨id, time, "ERC20", asset, .pending, none⟩] }
          validationError := none
          pendingMeta := some ⟨id, time, "ERC20", asset, .pending, none⟩
          finishedEvent := none } := by
    simp [watchAsset, hval]
  have hfind : (watchAsset s asset "ERC20" id time).state.suggestedAssets.find?
      (fun m => m.id = id) = some ⟨id, time, "ERC20", asset, .pending, none⟩ := by
    rw [hw]
    exact find?_append_last _ _ _ (fun m hm => by simp [hfresh m hm]) (by simp)
  refine ⟨by rw [hw], ?_, ?_, ?_, ?_, ?_, ?_, ?_⟩
  · simp [acceptWatchAsset, hfind]
  · simp [acceptWatchAsset, hfind, settleWatchPromise]
  · have htokens : (acceptWatchAsset cfg (watchAsset s asset "ERC20" id time).state
        id).state.tokens
        = (addToken cfg (watchAsset s asset "ERC20" id time).state asset.address
            asset.symbol asset.decimals asset.image).2 := by
      simp [acceptWatchAsset, hfind]
      rfl
    rw [htokens]
    exact addToken_mem cfg _ asset.address asset.symbol asset.decimals asset.image
  · have hs : (acceptWatchAsset cfg (watchAsset s asset "ERC20" id time).state
        id).state.suggestedAssets
        = (addToken cfg (watchAsset s asset "ERC20" id time).state asset.address
            asset.symbol asset.decimals
            asset.image).1.suggestedAssets.filter (fun m => m.id ≠ id) := by
      simp [acceptWatchAsset, hfind]
    intro m hm
    rw [hs] at hm
    have := (List.mem_filter.mp hm).2
    simpa using this
  · simp [rejectWatchAsset, hfind, settleWatchPromise]
  · have : (rejectWatchAsset (watchAsset s asset "ERC20" id time).state id).1.tokens
        = (watchAsset s asset "ERC20" id time).state.tokens := by
      simp [rejectWatchAsset, hfind]
    rw [this, hw]
  · intro m hm
    have hs : (rejectWatchAsset (watchAsset s asset "ERC20" id time).state
        id).1.suggestedAssets
        = (watchAsset s asset "ERC20" id
            time).state.suggestedAssets.filter (fun m => m.id ≠ id) := by
      simp [rejectWatchAsset, hfind]
    rw [hs] at hm
    have := (List.mem_filter.mp hm).2
    simpa using this

/-- Witness for the amended C1 at a concrete input: a valid lowercase-address
asset accepted and (in a separate run) rejected. -/
theorem watchAsset_acceptReject_flow_witness :
    (watchAsset defaultAssetsState
        ⟨"0xabcdefabcdefabcdefabcdefabcdefabcdefabcd", "ABC", 18, none⟩
        "ERC20" "idw" 3).validationError = none
      ∧ (acceptWatchAsset ⟨"0xACC", "1"⟩
          (watchAsset defaultAssetsState
            ⟨"0xabcdefabcdefabcdefabcdefabcdefabcdefabcd", "ABC", 18, none⟩
            "ERC20" "idw" 3).state "idw").thrownError = none
      ∧ (acceptWatchAsset ⟨"0xACC", "1"⟩
          (watchAsset defaultAssetsState
            ⟨"0xabcdefabcdefabcdefabcdefabcdefabcdefabcd", "ABC", 18, none⟩
            "ERC20" "idw" 3).state "idw").finishedEvent.map settleWatchPromise
        = some (PromiseOutcome.resolved "0xabcdefabcdefabcdefabcdefabcdefabcdefabcd")
      ∧ (rejectWatchAsset
          (watchAsset defaultAssetsState
            ⟨"0xabcdefabcdefabcdefabcdefabcdefabcdefabcd", "ABC", 18, none⟩
            "ERC20" "idw" 3).state "idw").2.map settleWatchPromise
        = some (PromiseOutcome.rejectedWith "User rejected to watch the asset.")
      ∧ (rejectWatchAsset
          (watchAsset defaultAssetsState
            ⟨"0xabcdefabcdefabcdefabcdefabcdefabcdefabcd", "ABC", 18, none⟩
            "ERC20" "idw" 3).state "idw").1.tokens = defaultAssetsState.tokens := by
  have h := watchAsset_acceptReject_flow ⟨"0xACC", "1"⟩ defaultAssetsState
    ⟨"0xabcdefabcdefabcdefabcdefabcdefabcdefabcd", "ABC", 18, none⟩ "idw" 3
    (by rfl) (by intro m hm; simp [defaultAssetsState] at hm)
  exact ⟨h.1, h.2.1, h.2.2.1, h.2.2.2.2.2.1, h.2.2.2.2.2.2.1⟩

/-- C5, evaluated at the failing input: with a registry holding the single
ERC20 contract `0xBB` and the user already tracking `0xBB` in
`config.tokens`, the candidate list built by `detectTokens` still contains
`0xBB`, while the spec's "registry minus tracked addresses" list is empty —
because `address in tokensAddresses` applies the JavaScript `in` operator to
an array of token objects, testing array indices rather than addresses, and a
hex address is never an array index (`jsInArray "0xBB" 1 = false`).  The rest
of the pass behaves as claimed: a balance key whose checksummed address is
ignored is not staged, a non-ignored one is staged with the registry's
decimals and symbol, and the single batched `addTokens` call happens exactly
when at least one token was staged. -/
theorem detectTokens_candidates_ignore_tracked_bug :
    detectTokensCandidates [⟨"0xBB", true, 18, "BB"⟩] [⟨"0xBB", "BB", 18, none⟩]
        = ["0xBB"]
      ∧ specCandidateList [⟨"0xBB", true, 18, "BB"⟩] [⟨"0xBB", "BB", 18, none⟩] = []
      ∧ jsInArray "0xBB" 1 = false
      ∧ detectTokensStaged [⟨"0xBB", true, 18, "BB"⟩] [] ["0xBB"]
        = [⟨"0xBB", "BB", 18, none⟩]
      ∧ detectTokensStaged [⟨"0xBB", true, 18, "BB"⟩] [⟨"0xBB", "BB", 18, none⟩]
          ["0xBB"] = []
      ∧ (detectTokensFinish ⟨"0xACC", "1"⟩ defaultAssetsState []).2 = false
      ∧ (detectTokensFinish ⟨"0xACC", "1"⟩ defaultAssetsState
          [⟨"0xBB", "BB", 18, none⟩]).2 = true := by
  decide

end Controllers
